import Mathlib

/-!
Shallow embedding of the two-stage ETL pipeline:
  scripts/fetch_data.py   (paginated GitHub search fetcher)
  scripts/process_data.py (per-row derivations and batch normalization)

The HTTP layer is modelled by a page-indexed stream of mocked responses
(status code plus the optional "items" field of the JSON body), exactly as
the repository's own tests mock `requests.get`.  Timestamps are modelled at
day granularity as integers (the code only ever uses `.dt.days` of the
differences).  Floating-point divisions are modelled over `Rat`.
-/

/-- A repository item as returned by the search API, with the JSON field
names read by `fetch_github_repos` (fetch_data.py lines 80-88). -/
structure RepoItem where
  name : String
  language : Option String
  stargazers_count : Int
  forks_count : Int
  created_at : String
  pushed_at : String
  html_url : String
deriving Repr, DecidableEq

/-- A row of the raw table built by the fetcher, with the renamed columns of
fetch_data.py lines 80-88. -/
structure RepoRow where
  name : String
  language : Option String
  stars : Int
  forks : Int
  creation_date : String
  last_commit_date : String
  repo_url : String
deriving Repr, DecidableEq

/-- The field renaming applied to each fetched item (fetch_data.py lines 80-88). -/
def toRow (repo : RepoItem) : RepoRow :=
  { name := repo.name
    language := repo.language
    stars := repo.stargazers_count
    forks := repo.forks_count
    creation_date := repo.created_at
    last_commit_date := repo.pushed_at
    repo_url := repo.html_url }

/-- A mocked HTTP response: the status code and the "items" field of the JSON
body (`none` models a body without an "items" key, as in
`if "items" not in data`). -/
structure Response where
  status : Nat
  items : Option (List RepoItem)

/-- The observable outcome of `fetch_github_repos`: whether the
`EnvironmentError` was raised, the returned table's rows, and how many HTTP
GET requests were issued. -/
structure FetchResult where
  raised : Bool
  rows : List RepoRow
  requests : Nat
deriving Repr

/-- Python truthiness test `if not github_token` on the value of
`os.getenv("GITHUB_TOKEN")`: true when the variable is unset (`None`) or
holds the empty string (fetch_data.py line 51). -/
def tokenMissing : Option String → Bool
  | none => true
  | some s => s == ""

/-- The pagination loop of fetch_data.py lines 67-95: while `page <= 10`,
request the page; on status 200 with a non-empty items list extend the
accumulator and continue, on a missing or empty items list break, and on any
other status break.  `fuel` counts the remaining iterations of the
`while page <= 10` guard; the pair returned is the accumulated rows and the
total number of requests issued. -/
def fetchLoop (resp : Nat → Response) : Nat → Nat → List RepoRow → Nat → List RepoRow × Nat
  | 0, _, acc, reqs => (acc, reqs)
  | fuel + 1, page, acc, reqs =>
    let r := resp page
    if r.status = 200 then
      match r.items with
      | none => (acc, reqs + 1)
      | some [] => (acc, reqs + 1)
      | some (i :: is) =>
          fetchLoop resp fuel (page + 1) (acc ++ (i :: is).map toRow) (reqs + 1)
    else (acc, reqs + 1)

/-- `fetch_github_repos` (fetch_data.py lines 32-102): raise when the token is
missing, otherwise run the pagination loop from page 1 with at most 10
iterations and return the accumulated rows (an empty DataFrame when nothing
was fetched, which we model as the empty row list). -/
def fetch_github_repos (github_token : Option String) (resp : Nat → Response) : FetchResult :=
  if tokenMissing github_token then
    { raised := true, rows := [], requests := 0 }
  else
    let out := fetchLoop resp 10 1 [] 0
    { raised := false, rows := out.1, requests := out.2 }

/-- The rows contributed by a single page: its items (empty when the "items"
key is absent) under the field renaming. -/
def pageRows (resp : Nat → Response) (page : Nat) : List RepoRow :=
  ((resp page).items.getD []).map toRow

/-- The rows accumulated from `k` consecutive pages starting at `page`,
in page order. -/
def segmentRows (resp : Nat → Response) : Nat → Nat → List RepoRow
  | _page, 0 => []
  | page, k + 1 => pageRows resp page ++ segmentRows resp (page + 1) k

/-- Whether a page's response carries a non-empty items list. -/
def pageHasItems (resp : Nat → Response) (page : Nat) : Bool :=
  match (resp page).items with
  | some (_ :: _) => true
  | _ => false

/-- The number of consecutive pages with non-empty items starting at `page`,
capped by `fuel`. -/
def nePages (resp : Nat → Response) : Nat → Nat → Nat
  | _page, 0 => 0
  | page, fuel + 1 =>
    if pageHasItems resp page then nePages resp (page + 1) fuel + 1 else 0

/-- The number of items on a page (0 when the "items" key is absent). -/
def itemCount (resp : Nat → Response) (page : Nat) : Nat :=
  ((resp page).items.getD []).length

/-- The total number of items on `k` consecutive pages starting at `page`. -/
def sumItems (resp : Nat → Response) : Nat → Nat → Nat
  | _page, 0 => 0
  | page, k + 1 => itemCount resp page + sumItems resp (page + 1) k

/-- The three labels of `pd.cut` in process_data.py lines 67-71. -/
inductive Category where
  | low
  | moderate
  | high
deriving Repr, DecidableEq

/-- A row of the raw table consumed by `process_data`.  Timestamps are
modelled at day granularity as integers (only `.dt.days` of differences is
ever used by the code). -/
structure RawRow where
  name : String
  language : Option String
  stars : Int
  forks : Int
  creation_date : Int
  last_commit_date : Int
  repo_url : String
deriving Repr, DecidableEq

/-- A row of the processed table: the raw columns after cleaning plus every
derived column added by `process_data` (process_data.py lines 47-79). -/
structure ProcessedRow where
  name : String
  language : String
  stars : Int
  forks : Int
  creation_date : Int
  last_commit_date : Int
  repo_url : String
  repo_age_years : Rat
  repo_age_days : Int
  days_since_last_commit : Int
  is_active : Bool
  stars_per_year : Rat
  forks_per_year : Rat
  popularity_score : Int
  engagement_rate : Rat
  star_to_fork_ratio : Rat
  language_known : Bool
  category : Option Category
  popularity_score_normalized : Rat
deriving Repr, DecidableEq

/-- The popularity score of a raw row: `stars + 2 * forks`
(process_data.py line 63). -/
def popularity_score (r : RawRow) : Int := r.stars + 2 * r.forks

/-- `pd.cut(stars, bins=[0, 10000, 50000, inf], labels=[...])` with pandas'
default right-closed intervals: `(0, 10000]`, `(10000, 50000]`,
`(50000, inf]`; a value outside every bin (in particular `stars = 0`) gets
no label (`NaN`), modelled as `none`. -/
def categorize (stars : Int) : Option Category :=
  if 0 < stars ∧ stars ≤ 10000 then some Category.low
  else if 10000 < stars ∧ stars ≤ 50000 then some Category.moderate
  else if 50000 < stars then some Category.high
  else none

/-- `df["forks"].replace(0, 1)` applied to one value (process_data.py line 65). -/
def safeForks (forks : Int) : Int := if forks = 0 then 1 else forks

/-- The per-row body of `process_data` (process_data.py lines 47-79): the
language fill, the date-derived columns against the single captured `now`,
the engagement columns, and the normalized popularity score computed from
the batch-wide `minVal`/`maxVal`. -/
def processRow (now minVal maxVal : Int) (r : RawRow) : ProcessedRow :=
  let lang := r.language.getD "Unknown"
  let ageDays : Int := now - r.creation_date
  let ageYears : Rat := (ageDays : Rat) / 365
  let sinceCommit : Int := now - r.last_commit_date
  let score := popularity_score r
  { name := r.name
    language := lang
    stars := r.stars
    forks := r.forks
    creation_date := r.creation_date
    last_commit_date := r.last_commit_date
    repo_url := r.repo_url
    repo_age_years := ageYears
    repo_age_days := ageDays
    days_since_last_commit := sinceCommit
    is_active := decide (sinceCommit ≤ 180)
    stars_per_year := (r.stars : Rat) / ageYears
    forks_per_year := (r.forks : Rat) / ageYears
    popularity_score := score
    engagement_rate := ((r.stars + r.forks : Int) : Rat) / ageYears
    star_to_fork_ratio := (r.stars : Rat) / ((safeForks r.forks : Int) : Rat)
    language_known := decide (lang ≠ "Unknown")
    category := categorize r.stars
    popularity_score_normalized :=
      if minVal = maxVal then (if score = maxVal then 100 else 0)
      else 100 * ((score : Rat) - (minVal : Rat)) / ((maxVal : Rat) - (minVal : Rat)) }

/-- `df["popularity_score"].min()` over a non-empty batch (0 on the empty
batch, where the code's `min()` is `NaN` and `process_data` produces no rows). -/
def minScore : List RawRow → Int
  | [] => 0
  | r :: rs => (rs.map popularity_score).foldl min (popularity_score r)

/-- `df["popularity_score"].max()` over a non-empty batch. -/
def maxScore : List RawRow → Int
  | [] => 0
  | r :: rs => (rs.map popularity_score).foldl max (popularity_score r)

/-- `process_data` (process_data.py lines 33-82) as a pure function of the
captured `now` and the raw rows: every derived column is computed per row,
with the normalization using the batch-wide min and max. -/
def process_data (now : Int) (rows : List RawRow) : List ProcessedRow :=
  match rows with
  | [] => []
  | r :: rs => (r :: rs).map (processRow now (minScore (r :: rs)) (maxScore (r :: rs)))

/-- A tabular CSV file at line granularity: the header line's cell texts and
each data line's cell texts.  Pandas' cell encoding (quoting, escaping) is
abstracted: `to_csv(index=False)` writes one header line then one line per
row, and `read_csv` reads the first line as the columns and each further
line as a row. -/
structure Table where
  cols : List String
  cells : List (List String)
deriving Repr, DecidableEq

/-- The file written by `df.to_csv(output_path, index=False)`: the header
line followed by the data lines. -/
def toCsv (t : Table) : List (List String) := t.cols :: t.cells

/-- `save_processed_data` (process_data.py lines 84-98) over an explicit
file-system map: writes the table's CSV file at `output_path`. -/
def save_processed_data (df : Table) (output_path : String)
    (fs : String → Option (List (List String))) : String → Option (List (List String)) :=
  fun p => if p = output_path then some (toCsv df) else fs p

/-- `load_raw_data` (process_data.py lines 16-31) over an explicit
file-system map: a missing file raises `FileNotFoundError` (modelled as
`Except.error`), a file with no header line raises inside `read_csv`
(also an error), and otherwise the first line gives the columns and the
remaining lines the rows. -/
def load_raw_data (input_path : String)
    (fs : String → Option (List (List String))) : Except Unit Table :=
  match fs input_path with
  | none => Except.error ()
  | some [] => Except.error ()
  | some (header :: rest) => Except.ok { cols := header, cells := rest }

/-! Helper lemmas shared by the claim theorems. -/

theorem processRow_category (now a b : Int) (r : RawRow) :
    (processRow now a b r).category = categorize r.stars := rfl

theorem processRow_popularity (now a b : Int) (r : RawRow) :
    (processRow now a b r).popularity_score = popularity_score r := rfl

theorem processRow_days_since (now a b : Int) (r : RawRow) :
    (processRow now a b r).days_since_last_commit = now - r.last_commit_date := rfl

theorem processRow_is_active (now a b : Int) (r : RawRow) :
    (processRow now a b r).is_active = decide (now - r.last_commit_date ≤ 180) := rfl

theorem processRow_language (now a b : Int) (r : RawRow) :
    (processRow now a b r).language = r.language.getD "Unknown" := rfl

theorem processRow_language_known (now a b : Int) (r : RawRow) :
    (processRow now a b r).language_known =
      decide (r.language.getD "Unknown" ≠ "Unknown") := rfl

theorem processRow_ratio (now a b : Int) (r : RawRow) :
    (processRow now a b r).star_to_fork_ratio =
      (r.stars : Rat) / ((safeForks r.forks : Int) : Rat) := rfl

theorem processRow_normalized (now a b : Int) (r : RawRow) :
    (processRow now a b r).popularity_score_normalized =
      if a = b then (if popularity_score r = b then 100 else 0)
      else 100 * ((popularity_score r : Rat) - (a : Rat)) / ((b : Rat) - (a : Rat)) := rfl

theorem process_data_length (now : Int) (rows : List RawRow) :
    (process_data now rows).length = rows.length := by
  cases rows <;> simp [process_data]

theorem process_data_get (now : Int) (rows : List RawRow) (i : Nat)
    (h : i < rows.length) (h2 : i < (process_data now rows).length) :
    (process_data now rows).get ⟨i, h2⟩ =
      processRow now (minScore rows) (maxScore rows) (rows.get ⟨i, h⟩) := by
  cases rows with
  | nil => simp at h
  | cons r rs => simp only [process_data, List.get_eq_getElem, List.getElem_map]

theorem foldl_min_le_init (l : List Int) (a : Int) : l.foldl min a ≤ a := by
  induction l generalizing a with
  | nil => simp
  | cons x xs ih =>
    simp only [List.foldl_cons]
    exact le_trans (ih (min a x)) (min_le_left a x)

theorem foldl_min_le_mem (l : List Int) (a x : Int) (hx : x ∈ l) : l.foldl min a ≤ x := by
  induction l generalizing a with
  | nil => simp at hx
  | cons y ys ih =>
    simp only [List.foldl_cons]
    rcases List.mem_cons.mp hx with h | h
    · subst h
      exact le_trans (foldl_min_le_init ys (min a x)) (min_le_right a x)
    · exact ih (min a y) h

theorem le_foldl_max_init (l : List Int) (a : Int) : a ≤ l.foldl max a := by
  induction l generalizing a with
  | nil => simp
  | cons x xs ih =>
    simp only [List.foldl_cons]
    exact le_trans (le_max_left a x) (ih (max a x))

theorem le_foldl_max_mem (l : List Int) (a x : Int) (hx : x ∈ l) : x ≤ l.foldl max a := by
  induction l generalizing a with
  | nil => simp at hx
  | cons y ys ih =>
    simp only [List.foldl_cons]
    rcases List.mem_cons.mp hx with h | h
    · subst h
      exact le_trans (le_max_right a x) (le_foldl_max_init ys (max a x))
    · exact ih (max a y) h

theorem minScore_le (rows : List RawRow) (r : RawRow) (hr : r ∈ rows) :
    minScore rows ≤ popularity_score r := by
  cases rows with
  | nil => simp at hr
  | cons x xs =>
    rcases List.mem_cons.mp hr with h | h
    · subst h; exact foldl_min_le_init _ _
    · exact foldl_min_le_mem _ _ _ (List.mem_map_of_mem popularity_score h)

theorem le_maxScore (rows : List RawRow) (r : RawRow) (hr : r ∈ rows) :
    popularity_score r ≤ maxScore rows := by
  cases rows with
  | nil => simp at hr
  | cons x xs =>
    rcases List.mem_cons.mp hr with h | h
    · subst h; exact le_foldl_max_init _ _
    · exact le_foldl_max_mem _ _ _ (List.mem_map_of_mem popularity_score h)

theorem fetchLoop_stop (resp : Nat → Response) :
    ∀ (k fuel page : Nat) (acc : List RepoRow) (reqs : Nat), k < fuel →
      (∀ j, j < k → (resp (page + j)).status = 200 ∧ pageHasItems resp (page + j) = true) →
      (resp (page + k)).status ≠ 200 →
      fetchLoop resp fuel page acc reqs = (acc ++ segmentRows resp page k, reqs + k + 1) := by
  intro k
  induction k with
  | zero =>
    intro fuel page acc reqs hk _ hbad
    cases fuel with
    | zero => omega
    | succ fuel =>
      rw [Nat.add_zero] at hbad
      simp [fetchLoop, hbad, segmentRows]
  | succ k ih =>
    intro fuel page acc reqs hk hgood hbad
    cases fuel with
    | zero => omega
    | succ fuel =>
      obtain ⟨hst, hne⟩ := hgood 0 (Nat.succ_pos k)
      rw [Nat.add_zero] at hst hne
      cases hitems : (resp page).items with
      | none => simp [pageHasItems, hitems] at hne
      | some l =>
        cases l with
        | nil => simp [pageHasItems, hitems] at hne
        | cons x xs =>
          have hrec : fetchLoop resp (fuel + 1) page acc reqs =
              fetchLoop resp fuel (page + 1) (acc ++ (x :: xs).map toRow) (reqs + 1) := by
            simp [fetchLoop, hst, hitems]
          have hgood' : ∀ j, j < k →
              (resp (page + 1 + j)).status = 200 ∧ pageHasItems resp (page + 1 + j) = true := by
            intro j hj
            have hrw : page + 1 + j = page + (j + 1) := by omega
            rw [hrw]
            exact hgood (j + 1) (by omega)
          have hbad' : (resp (page + 1 + k)).status ≠ 200 := by
            have hrw : page + 1 + k = page + (k + 1) := by omega
            rw [hrw]
            exact hbad
          rw [hrec, ih fuel (page + 1) (acc ++ (x :: xs).map toRow) (reqs + 1) (by omega) hgood' hbad']
          refine Prod.ext ?_ ?_
          · simp [segmentRows, pageRows, hitems, List.append_assoc]
          · simp
            omega

theorem fetchLoop_ok (resp : Nat → Response) (hstatus : ∀ p, (resp p).status = 200) :
    ∀ (fuel page : Nat) (acc : List RepoRow) (reqs : Nat),
      fetchLoop resp fuel page acc reqs =
        (acc ++ segmentRows resp page (nePages resp page fuel),
         reqs + min fuel (nePages resp page fuel + 1)) := by
  intro fuel
  induction fuel with
  | zero => intro page acc reqs; simp [fetchLoop, nePages, segmentRows]
  | succ fuel ih =>
    intro page acc reqs
    cases hitems : (resp page).items with
    | none =>
      have hpi : pageHasItems resp page = false := by simp [pageHasItems, hitems]
      have : fetchLoop resp (fuel + 1) page acc reqs = (acc, reqs + 1) := by
        simp [fetchLoop, hstatus page, hitems]
      rw [this]
      refine Prod.ext ?_ ?_
      · simp [nePages, hpi, segmentRows]
      · simp [nePages, hpi]
    | some l =>
      cases l with
      | nil =>
        have hpi : pageHasItems resp page = false := by simp [pageHasItems, hitems]
        have : fetchLoop resp (fuel + 1) page acc reqs = (acc, reqs + 1) := by
          simp [fetchLoop, hstatus page, hitems]
        rw [this]
        refine Prod.ext ?_ ?_
        · simp [nePages, hpi, segmentRows]
        · simp [nePages, hpi]
      | cons x xs =>
        have hpi : pageHasItems resp page = true := by simp [pageHasItems, hitems]
        have hrec : fetchLoop resp (fuel + 1) page acc reqs =
            fetchLoop resp fuel (page + 1) (acc ++ (x :: xs).map toRow) (reqs + 1) := by
          simp [fetchLoop, hstatus page, hitems]
        rw [hrec, ih (page + 1) (acc ++ (x :: xs).map toRow) (reqs + 1)]
        refine Prod.ext ?_ ?_
        · simp [nePages, hpi, segmentRows, pageRows, hitems, List.append_assoc]
        · simp [nePages, hpi]
          omega

theorem segmentRows_length (resp : Nat → Response) :
    ∀ (k page : Nat), (segmentRows resp page k).length = sumItems resp page k := by
  intro k
  induction k with
  | zero => intro page; simp [segmentRows, sumItems]
  | succ k ih => intro page; simp [segmentRows, sumItems, pageRows, itemCount, ih]

theorem nePages_le (resp : Nat → Response) :
    ∀ (fuel page : Nat), nePages resp page fuel ≤ fuel := by
  intro fuel
  induction fuel with
  | zero => intro page; simp [nePages]
  | succ fuel ih =>
    intro page
    simp only [nePages]
    split
    · exact Nat.succ_le_succ (ih (page + 1))
    · exact Nat.zero_le _

theorem sumItems_le (resp : Nat → Response) (bound : Nat)
    (hsize : ∀ p, itemCount resp p ≤ bound) :
    ∀ (k page : Nat), sumItems resp page k ≤ bound * k := by
  intro k
  induction k with
  | zero => intro page; simp [sumItems]
  | succ k ih =>
    intro page
    have h1 := hsize page
    have h2 := ih (page + 1)
    simp only [sumItems]
    calc itemCount resp page + sumItems resp (page + 1) k ≤ bound + bound * k := by omega
    _ = bound * (k + 1) := by ring

/-! Claim theorems about the fetcher. -/

/-- C1: with a token present, when page N (1 ≤ N ≤ 10) is the first
non-success response and every earlier page is successful with a non-empty
items list, `fetch_github_repos` does not raise and returns exactly the rows
accumulated from pages 1..N-1, in page order (the empty table when N = 1). -/
theorem fetch_stops_at_first_error (tok : String) (htok : tok ≠ "")
    (resp : Nat → Response) (N : Nat) (h1 : 1 ≤ N) (h10 : N ≤ 10)
    (hgood : ∀ p, 1 ≤ p → p < N → (resp p).status = 200 ∧ pageHasItems resp p = true)
    (hbad : (resp N).status ≠ 200) :
    (fetch_github_repos (some tok) resp).raised = false ∧
    (fetch_github_repos (some tok) resp).rows = segmentRows resp 1 (N - 1) := by
  have hmiss : tokenMissing (some tok) = false := by
    simp [tokenMissing, htok]
  have hbad' : (resp (1 + (N - 1))).status ≠ 200 := by
    have hrw : 1 + (N - 1) = N := by omega
    rw [hrw]
    exact hbad
  have hstop := fetchLoop_stop resp (N - 1) 10 1 [] 0 (by omega)
    (fun j hj => hgood (1 + j) (by omega) (by omega)) hbad'
  simp [fetch_github_repos, hmiss, hstop]

/-- The single-item page used by the C1 witness stream. -/
def itemC1 : RepoItem :=
  { name := "repo1", language := some "Python", stargazers_count := 15000,
    forks_count := 300, created_at := "2021-01-01", pushed_at := "2022-01-01",
    html_url := "example" }

/-- The C1 witness stream: page 1 succeeds with one item, every later page
returns status 403. -/
def respC1 : Nat → Response := fun p =>
  if p = 1 then { status := 200, items := some [itemC1] }
  else { status := 403, items := none }

/-- Witness for C1 at the concrete stream `respC1`, where page 2 is the
first non-success response. -/
theorem fetch_stops_at_first_error_witness :
    (fetch_github_repos (some "t") respC1).raised = false ∧
    (fetch_github_repos (some "t") respC1).rows = segmentRows respC1 1 (2 - 1) :=
  fetch_stops_at_first_error "t" (by simp) respC1 2 (by omega) (by omega)
    (fun p hp1 hp2 => by
      have hp : p = 1 := by omega
      subst hp
      exact ⟨rfl, rfl⟩)
    (by simp [respC1])

/-- C2: with a token present and every page responding with status 200,
`fetch_github_repos` does not raise, returns exactly as many rows as the
total item count of the consecutive non-empty pages before the first empty
page (capped by the 10 pages the loop ever requests), issues at most 10
requests, and — when every page carries at most the 100 items asked for by
`per_page` — never returns more than 1000 rows. -/
theorem fetch_counts_until_first_empty (tok : String) (htok : tok ≠ "")
    (resp : Nat → Response) (hstatus : ∀ p, (resp p).status = 200)
    (hsize : ∀ p, itemCount resp p ≤ 100) :
    (fetch_github_repos (some tok) resp).raised = false ∧
    (fetch_github_repos (some tok) resp).rows.length =
      sumItems resp 1 (nePages resp 1 10) ∧
    (fetch_github_repos (some tok) resp).requests ≤ 10 ∧
    (fetch_github_repos (some tok) resp).rows.length ≤ 1000 := by
  have hmiss : tokenMissing (some tok) = false := by
    simp [tokenMissing, htok]
  have hloop := fetchLoop_ok resp hstatus 10 1 [] 0
  have hlen : (segmentRows resp 1 (nePages resp 1 10)).length =
      sumItems resp 1 (nePages resp 1 10) := segmentRows_length resp _ 1
  have hne10 : nePages resp 1 10 ≤ 10 := nePages_le resp 10 1
  have hsum : sumItems resp 1 (nePages resp 1 10) ≤ 100 * nePages resp 1 10 :=
    sumItems_le resp 100 hsize _ 1
  refine ⟨?_, ?_, ?_, ?_⟩ <;>
    simp [fetch_github_repos, hmiss, hloop, hlen]
  all_goals omega

/-- The C2 witness stream: page 1 succeeds with one item, every later page
succeeds with an empty items list. -/
def respC2 : Nat → Response := fun p =>
  if p = 1 then { status := 200, items := some [itemC1] }
  else { status := 200, items := some [] }

/-- Witness for C2 at the concrete all-success stream `respC2`. -/
theorem fetch_counts_until_first_empty_witness :
    (fetch_github_repos (some "t") respC2).raised = false ∧
    (fetch_github_repos (some "t") respC2).rows.length =
      sumItems respC2 1 (nePages respC2 1 10) ∧
    (fetch_github_repos (some "t") respC2).requests ≤ 10 ∧
    (fetch_github_repos (some "t") respC2).rows.length ≤ 1000 :=
  fetch_counts_until_first_empty "t" (by simp) respC2
    (fun p => by by_cases h : p = 1 <;> simp [respC2, h])
    (fun p => by by_cases h : p = 1 <;> simp [respC2, itemCount, h])

/-- C5: when the token environment variable is absent or empty,
`fetch_github_repos` raises the configuration error having issued zero HTTP
requests and returns no rows. -/
theorem fetch_missing_token_aborts (tok : Option String)
    (h : tok = none ∨ tok = some "") (resp : Nat → Response) :
    (fetch_github_repos tok resp).raised = true ∧
    (fetch_github_repos tok resp).requests = 0 ∧
    (fetch_github_repos tok resp).rows = [] := by
  have hmiss : tokenMissing tok = true := by
    rcases h with h | h <;> subst h <;> simp [tokenMissing]
  simp [fetch_github_repos, hmiss]

/-- An arbitrary concrete response stream for the C5 witness. -/
def respC5 : Nat → Response := fun _ => { status := 200, items := some [] }

/-- Witness for C5 with the token variable unset. -/
theorem fetch_missing_token_aborts_witness :
    (fetch_github_repos none respC5).raised = true ∧
    (fetch_github_repos none respC5).requests = 0 ∧
    (fetch_github_repos none respC5).rows = [] :=
  fetch_missing_token_aborts none (Or.inl rfl) respC5

/-! Claim theorems about the processor. -/

/-- C3: on a non-empty batch process_data never divides by zero in the
normalization: when the batch minimum popularity score equals the batch
maximum, every processed row's normalized score is 100; otherwise the
denominator max - min is non-zero and every processed row's normalized score
is 100 * (score - min) / (max - min). -/
theorem normalization_minmax_cases (now : Int) (rows : List RawRow) (hne : rows ≠ []) :
    (minScore rows = maxScore rows →
      ∀ p ∈ process_data now rows, p.popularity_score_normalized = 100) ∧
    (minScore rows ≠ maxScore rows →
      ((maxScore rows : Rat) - (minScore rows : Rat)) ≠ 0 ∧
      ∀ p ∈ process_data now rows, p.popularity_score_normalized =
        100 * ((p.popularity_score : Rat) - (minScore rows : Rat)) /
          ((maxScore rows : Rat) - (minScore rows : Rat))) := by
  obtain ⟨x, xs, rfl⟩ : ∃ x xs, rows = x :: xs := by
    cases rows with
    | nil => exact absurd rfl hne
    | cons x xs => exact ⟨x, xs, rfl⟩
  constructor
  · intro heq p hp
    rw [process_data] at hp
    obtain ⟨r, hr, rfl⟩ := List.mem_map.mp hp
    have hlo := minScore_le (x :: xs) r hr
    have hhi := le_maxScore (x :: xs) r hr
    have hsc : popularity_score r = maxScore (x :: xs) := by omega
    rw [processRow_normalized, if_pos heq, if_pos hsc]
  · intro hne'
    have hden : ((maxScore (x :: xs) : Rat) - (minScore (x :: xs) : Rat)) ≠ 0 := by
      intro hc
      apply hne'
      have : (minScore (x :: xs) : Rat) = (maxScore (x :: xs) : Rat) := by linarith
      exact_mod_cast this
    refine ⟨hden, ?_⟩
    intro p hp
    rw [process_data] at hp
    obtain ⟨r, hr, rfl⟩ := List.mem_map.mp hp
    rw [processRow_normalized, if_neg hne', processRow_popularity]

/-- The single raw row used by the C3 witness batch (its score is trivially
both the batch minimum and maximum). -/
def rowC3 : RawRow :=
  { name := "only", language := some "Python", stars := 100, forks := 10,
    creation_date := 0, last_commit_date := 0, repo_url := "u" }

/-- Witness for C3: on the one-row batch the minimum equals the maximum and
the processed row's normalized score is 100. -/
theorem normalization_minmax_cases_witness :
    ((process_data 9 [rowC3]).get ⟨0, by simp [process_data_length]⟩).popularity_score_normalized = 100 := by
  have h := (normalization_minmax_cases 9 [rowC3] (by simp)).1 rfl
  exact h _ (List.get_mem _ _ _)

/-- C4 counterexample: the claim asserts every row with stars ≥ 0 receives
one of the three labels, but processing a row with stars = 0 yields a row
whose category is empty: the lowest `pd.cut` bin `(0, 10000]` is left-open,
so 0 falls outside every bin and gets NaN instead of a label. -/
def rowC4 : RawRow :=
  { name := "zero", language := some "Python", stars := 0, forks := 1,
    creation_date := 0, last_commit_date := 0, repo_url := "u" }

/-- C4 counterexample theorem: the processed row for `rowC4` (stars = 0,
a value the claim covers) carries no category label at all. -/
theorem category_none_at_zero_stars :
    (process_data 100 [rowC4]).map ProcessedRow.category = [none] := rfl

/-- C4 (amended): every row with stars ≥ 1 gets exactly one of the three
labels, decided by the thresholds: stars in (0, 10000] gives Low Popularity,
stars in (10000, 50000] gives Moderate Popularity, and stars above 50000
gives High Popularity.  (Rows with stars = 0 get no label, as the
counterexample shows.) -/
theorem category_thresholds_pos (now : Int) (rows : List RawRow) (i : Nat)
    (h : i < rows.length) (h2 : i < (process_data now rows).length)
    (hpos : 0 < (rows.get ⟨i, h⟩).stars) :
    ((process_data now rows).get ⟨i, h2⟩).category =
      some (if (rows.get ⟨i, h⟩).stars ≤ 10000 then Category.low
        else if (rows.get ⟨i, h⟩).stars ≤ 50000 then Category.moderate
        else Category.high) := by
  rw [process_data_get now rows i h h2, processRow_category]
  unfold categorize
  split_ifs <;> first | rfl | (exfalso; omega)

/-- A raw row with a moderate star count for the C4 witness. -/
def rowC4w : RawRow :=
  { name := "mid", language := some "Python", stars := 27500, forks := 10,
    creation_date := 0, last_commit_date := 0, repo_url := "u" }

/-- Witness for the amended C4 at a row with stars = 27500, which lands in
the Moderate Popularity bin. -/
theorem category_thresholds_pos_witness :
    ((process_data 100 [rowC4w]).get ⟨0, by simp [process_data_length]⟩).category =
      some (if ([rowC4w].get ⟨0, by simp⟩).stars ≤ 10000 then Category.low
        else if ([rowC4w].get ⟨0, by simp⟩).stars ≤ 50000 then Category.moderate
        else Category.high) :=
  category_thresholds_pos 100 [rowC4w] 0 (by simp) (by simp [process_data_length])
    (by simp [rowC4w])

/-- C6: star_to_fork_ratio is stars / forks when forks > 0 and
stars / 1 = stars when forks = 0, and the replaced divisor
`forks.replace(0, 1)` is never zero. -/
theorem star_to_fork_ratio_safe (now : Int) (rows : List RawRow) (i : Nat)
    (h : i < rows.length) (h2 : i < (process_data now rows).length) :
    (0 < (rows.get ⟨i, h⟩).forks →
      ((process_data now rows).get ⟨i, h2⟩).star_to_fork_ratio =
        ((rows.get ⟨i, h⟩).stars : Rat) / ((rows.get ⟨i, h⟩).forks : Rat)) ∧
    ((rows.get ⟨i, h⟩).forks = 0 →
      ((process_data now rows).get ⟨i, h2⟩).star_to_fork_ratio =
        ((rows.get ⟨i, h⟩).stars : Rat)) ∧
    safeForks (rows.get ⟨i, h⟩).forks ≠ 0 := by
  rw [process_data_get now rows i h h2]
  refine ⟨?_, ?_, ?_⟩
  · intro hpos
    have hnz : (rows.get ⟨i, h⟩).forks ≠ 0 := by omega
    rw [processRow_ratio]
    simp only [safeForks]
    rw [if_neg hnz]
  · intro hz
    rw [processRow_ratio]
    simp only [safeForks]
    rw [if_pos hz]
    simp
  · simp only [safeForks]
    split <;> omega

/-- A raw row with ten forks for the C6 witness. -/
def rowC6 : RawRow :=
  { name := "forked", language := some "Python", stars := 100, forks := 10,
    creation_date := 0, last_commit_date := 0, repo_url := "u" }

/-- Witness for C6 at a row with forks = 10 > 0. -/
theorem star_to_fork_ratio_safe_witness :
    ((process_data 5 [rowC6]).get ⟨0, by simp [process_data_length]⟩).star_to_fork_ratio =
      ((([rowC6].get ⟨0, by simp⟩).stars : Int) : Rat) /
        ((([rowC6].get ⟨0, by simp⟩).forks : Int) : Rat) :=
  (star_to_fork_ratio_safe 5 [rowC6] 0 (by simp) (by simp [process_data_length])).1
    (by simp [rowC6])

/-- C7: a row with missing language gets the sentinel "Unknown" and
language_known = false; a row with a present language other than "Unknown"
gets language_known = true. -/
theorem language_unknown_sentinel (now : Int) (rows : List RawRow) (i : Nat)
    (h : i < rows.length) (h2 : i < (process_data now rows).length) :
    ((rows.get ⟨i, h⟩).language = none →
      ((process_data now rows).get ⟨i, h2⟩).language = "Unknown" ∧
      ((process_data now rows).get ⟨i, h2⟩).language_known = false) ∧
    (∀ s, (rows.get ⟨i, h⟩).language = some s → s ≠ "Unknown" →
      ((process_data now rows).get ⟨i, h2⟩).language_known = true) := by
  rw [process_data_get now rows i h h2]
  constructor
  · intro hnone
    rw [processRow_language, processRow_language_known, hnone]
    simp
  · intro s hs hneq
    rw [processRow_language_known, hs]
    simp [hneq]

/-- A raw row with a null language for the C7 witness. -/
def rowC7 : RawRow :=
  { name := "nolang", language := none, stars := 50, forks := 5,
    creation_date := 0, last_commit_date := 0, repo_url := "u" }

/-- Witness for C7 at a row whose language is missing. -/
theorem language_unknown_sentinel_witness :
    ((process_data 5 [rowC7]).get ⟨0, by simp [process_data_length]⟩).language = "Unknown" ∧
    ((process_data 5 [rowC7]).get ⟨0, by simp [process_data_length]⟩).language_known = false :=
  (language_unknown_sentinel 5 [rowC7] 0 (by simp) (by simp [process_data_length])).1 rfl

/-- C8: every processed row's popularity_score equals stars + 2 * forks of
the corresponding raw row. -/
theorem popularity_score_formula (now : Int) (rows : List RawRow) (i : Nat)
    (h : i < rows.length) (h2 : i < (process_data now rows).length) :
    ((process_data now rows).get ⟨i, h2⟩).popularity_score =
      (rows.get ⟨i, h⟩).stars + 2 * (rows.get ⟨i, h⟩).forks := by
  rw [process_data_get now rows i h h2, processRow_popularity, popularity_score]

/-- The spec's example row for the C8 witness: stars = 100 and forks = 10. -/
def rowC8 : RawRow :=
  { name := "repo1", language := some "Python", stars := 100, forks := 10,
    creation_date := 0, last_commit_date := 0, repo_url := "u" }

/-- Witness for C8: the row with stars = 100 and forks = 10 gets
popularity_score = 120. -/
theorem popularity_score_formula_witness :
    ((process_data 700 [rowC8]).get ⟨0, by simp [process_data_length]⟩).popularity_score = 120 := by
  have h := popularity_score_formula 700 [rowC8] 0 (by simp) (by simp [process_data_length])
  simpa [rowC8] using h

/-- C9: saving a table with save_processed_data and loading the saved file
with load_raw_data succeeds and yields a table with the same column set and
the same row count as the original. -/
theorem save_load_roundtrip (df : Table) (path : String)
    (fs : String → Option (List (List String))) :
    ∃ t, load_raw_data path (save_processed_data df path fs) = Except.ok t ∧
      t.cols = df.cols ∧ t.cells.length = df.cells.length := by
  refine ⟨⟨df.cols, df.cells⟩, ?_, rfl, rfl⟩
  simp [load_raw_data, save_processed_data, toCsv]

/-- C10: a processed row's is_active is true exactly when its
days_since_last_commit is at most 180. -/
theorem is_active_iff_recent (now : Int) (rows : List RawRow) (i : Nat)
    (h : i < rows.length) (h2 : i < (process_data now rows).length) :
    ((process_data now rows).get ⟨i, h2⟩).is_active = true ↔
      ((process_data now rows).get ⟨i, h2⟩).days_since_last_commit ≤ 180 := by
  rw [process_data_get now rows i h h2, processRow_is_active, processRow_days_since]
  exact decide_eq_true_iff

/-- A raw row whose last commit is 100 days old for the C10 witness. -/
def rowC10 : RawRow :=
  { name := "fresh", language := some "Python", stars := 50, forks := 5,
    creation_date := 0, last_commit_date := 0, repo_url := "u" }

/-- Witness for C10 at a row processed 100 days after its last commit. -/
theorem is_active_iff_recent_witness :
    ((process_data 100 [rowC10]).get ⟨0, by simp [process_data_length]⟩).is_active = true ↔
      ((process_data 100 [rowC10]).get ⟨0, by simp [process_data_length]⟩).days_since_last_commit ≤ 180 :=
  is_active_iff_recent 100 [rowC10] 0 (by simp) (by simp [process_data_length])
